import Mathlib

/-!
Verification of the decision core of an online-exam proctoring service:
the risk aggregator (`violation_summary` upsert), the per-frame violation
classifier, the monitoring orchestrator, and the face-embedding store with
its identity verifier.  Python sources are embedded shallowly: timestamps
are abstract `Nat` values, SQL rows are records, external collaborators
(S3 upload, MySQL insert, face detectors) are oracle inputs.
-/

/-- One row of the `violation_summary` table (spec §3): per-submission severity
counts, first/last violation timestamps and the running risk score. -/
structure SummaryRow where
  total_violations : Nat
  critical_count : Nat
  high_count : Nat
  medium_count : Nat
  low_count : Nat
  first_violation_at : Nat
  last_violation_at : Nat
  risk_score : Nat
  deriving DecidableEq, Repr

/-- The SQL expression `CASE WHEN severity = 'target' THEN 1 ELSE 0 END` used in
`update_violation_summary` (src/database/mysql_service.py:137-154). -/
def caseEq (severity target : String) : Nat :=
  if severity = target then 1 else 0

/-- `MySQLService.update_violation_summary` (src/database/mysql_service.py:105-169):
the `INSERT ... ON DUPLICATE KEY UPDATE` statement on `violation_summary`, modelled
as a transition on the optional existing row for the submission.  When no row
exists the `VALUES` list applies: every count comes from a `CASE` bucket test,
both timestamps are `detected_at`, and `risk_score` is the literal `0` written in
the SQL.  When a row exists, MySQL applies the update assignments left to right
and a column reference in a later assignment sees the value already assigned
earlier in the same statement (as in `UPDATE t SET col1 = col1 + 1, col2 = col1`,
where `col2` gets the updated `col1`).  The four count assignments precede the
`risk_score` assignment, so the `risk_score` expression
`(critical_count + CASE ...) * 50 + ...` reads the already-incremented counts
and adds the new violation's bucket a second time; the `let`-bound updated
counts below transcribe that evaluation order. -/
def MySQLService.update_violation_summary (existing : Option SummaryRow)
    (severity : String) (detected_at : Nat) : SummaryRow :=
  match existing with
  | none =>
    { total_violations := 1
      critical_count := caseEq severity "critical"
      high_count := caseEq severity "high"
      medium_count := caseEq severity "medium"
      low_count := caseEq severity "low"
      first_violation_at := detected_at
      last_violation_at := detected_at
      risk_score := 0 }
  | some row =>
    let critical_count := row.critical_count + caseEq severity "critical"
    let high_count := row.high_count + caseEq severity "high"
    let medium_count := row.medium_count + caseEq severity "medium"
    let low_count := row.low_count + caseEq severity "low"
    { total_violations := row.total_violations + 1
      critical_count := critical_count
      high_count := high_count
      medium_count := medium_count
      low_count := low_count
      first_violation_at := row.first_violation_at
      last_violation_at := detected_at
      risk_score :=
        (critical_count + caseEq severity "critical") * 50 +
        (high_count + caseEq severity "high") * 10 +
        (medium_count + caseEq severity "medium") * 10 +
        (low_count + caseEq severity "low") * 10 }

/-- The spec's risk-score formula (spec §4.4) evaluated over a summary row:
`critical_count*50 + high_count*10 + medium_count*10 + low_count*10`. -/
def risk_score_formula (row : SummaryRow) : Nat :=
  row.critical_count * 50 + row.high_count * 10 +
    row.medium_count * 10 + row.low_count * 10

/-- One detected face as the classifier sees it: only `label` and `confidence`
are read by `_classify_violation` / `_calculate_confidence` (src/app.py). -/
structure Face where
  label : String
  confidence : Option ℚ
  deriving DecidableEq

/-- One detected object from the object-detector collaborator. -/
structure DetectedObject where
  label : String
  confidence : Option ℚ
  deriving DecidableEq

/-- The detection signal bundle produced per frame by the external pipeline
(spec §3): `status`, detected faces, detected objects, and free-text flags. -/
structure DetectionResult where
  status : String
  faces : List Face
  objects : List DetectedObject
  flags : List String
  deriving DecidableEq

/-- `startsWithChars a b` is true when `b` is a leading segment of `a`
(helper for Python's substring operator). -/
def startsWithChars : List Char → List Char → Bool
  | _, [] => true
  | [], _ :: _ => false
  | c :: cs, d :: ds => c == d && startsWithChars cs ds

/-- Python's substring test `needle in haystack`, on character lists. -/
def containsChars : List Char → List Char → Bool
  | [], needle => needle.isEmpty
  | c :: cs, needle => startsWithChars (c :: cs) needle || containsChars cs needle

/-- Python's `needle in haystack` on strings. -/
def strContains (haystack needle : String) : Bool :=
  containsChars haystack.toList needle.toList

/-- Python's `str.lower()`. -/
def strLower (s : String) : String :=
  String.map Char.toLower s

/-- Body of the flag loop of `_classify_violation` (src/app.py:557-583) for one
already-lowercased flag: the gaze branch (any flag containing "gaze" but not
"center") and the head-orientation branch, each mapping the looking-direction
substring to a labelled violation of severity "medium". -/
def classifyFlag (fl : String) : Option (String × String) :=
  if strContains fl "gaze" && !strContains fl "center" then
    some (if strContains fl "looking up" then ("Mắt nhìn lên", "medium")
      else if strContains fl "looking down" then ("Mắt nhìn xuống", "medium")
      else if strContains fl "looking left" then ("Mắt nhìn trái", "medium")
      else if strContains fl "looking right" then ("Mắt nhìn phải", "medium")
      else ("Mắt nhìn sang chỗ khác", "medium"))
  else if strContains fl "head orientation" then
    some (if strContains fl "looking up" then ("Đầu ngẩng lên", "medium")
      else if strContains fl "looking down" then ("Đầu cúi xuống", "medium")
      else if strContains fl "looking left" then ("Đầu quay trái", "medium")
      else if strContains fl "looking right" then ("Đầu quay phải", "medium")
      else ("Cử động đầu bất thường", "medium"))
  else none

/-- The `for flag in flags` loop of `_classify_violation`: first flag whose
lowercase form matches a gaze or head-orientation pattern wins. -/
def scanFlags : List String → Option (String × String)
  | [] => none
  | flag :: rest =>
    match classifyFlag (strLower flag) with
    | some r => some r
    | none => scanFlags rest

/-- `_classify_violation` (src/app.py:522-586): the priority cascade mapping a
detection result and its flags to `(violation_type, severity)`. -/
def _classify_violation (result : DetectionResult) (flags : List String) :
    String × String :=
  let faces := result.faces
  let objects := result.objects
  if faces.length > 1 then ("Nhiều khuôn mặt trong khung hình", "critical")
  else if faces.length == 0 then ("Không phát hiện khuôn mặt", "critical")
  else if (match faces with
           | [] => false
           | f :: _ => f.label == "Unknown") then ("Phát hiện người lạ", "critical")
  else if !objects.isEmpty then ("Phát hiện vật dụng khả nghi", "critical")
  else
    match scanFlags flags with
    | some r => r
    | none => ("Vi phạm khác", "medium")

/-- Python truthiness of the optional violation id returned by
`insert_violation` (`if violation_id:` in src/app.py:205): `None` and `0` are
falsy. -/
def pyTruthyNat : Option Nat → Bool
  | none => false
  | some n => n != 0

/-- Observable outcome of one `/api/monitor` call past the user lookup and
image decoding: which persistence calls were made and the HTTP response. -/
structure MonitorOutcome where
  uploadCalled : Bool
  insertCalled : Bool
  summaryCalled : Bool
  httpStatus : Nat
  responseStatus : String
  violationId : Option Nat
  violationType : Option String
  severityOut : Option String
  imageUrl : Option String
  deriving DecidableEq

/-- `monitor_exam` (src/app.py:157-244), the segment after the student lookup
and image extraction succeed and `PIPELINE.analyze` returns `result`.  The two
external persistence collaborators are oracle inputs: `uploadResult` is the
`(image_url, image_key)` pair `upload_violation_image` would return (both
`none` on failure, per src/database/s3_service.py), and `insertResult` the
optional violation id from `insert_violation` (`none` on a caught MySQL
error).  The violation branch runs only when `status != "clear"` AND the flag
list is non-empty; the summary upsert runs only when the returned violation id
is truthy; both branches answer HTTP 200. -/
def monitor_exam (result : DetectionResult)
    (uploadResult : Option String × Option String)
    (insertResult : Option Nat) : MonitorOutcome :=
  let has_violation : Bool := result.status != "clear"
  let flags := result.flags
  if has_violation && !flags.isEmpty then
    let vt := (_classify_violation result flags).1
    let sev := (_classify_violation result flags).2
    { uploadCalled := true
      insertCalled := true
      summaryCalled := pyTruthyNat insertResult
      httpStatus := 200
      responseStatus := "violation_detected"
      violationId := insertResult
      violationType := some vt
      severityOut := some sev
      imageUrl := uploadResult.1 }
  else
    { uploadCalled := false
      insertCalled := false
      summaryCalled := false
      httpStatus := 200
      responseStatus := "clear"
      violationId := none
      violationType := none
      severityOut := none
      imageUrl := none }

/-- Fold of the monitoring flow into the summary table for one submission:
each call's severity is what `_classify_violation` yields on that call's
detection result, applied through `update_violation_summary`. -/
def summaryAfterMonitoring (calls : List (DetectionResult × Nat)) :
    Option SummaryRow :=
  calls.foldl
    (fun acc c =>
      some (MySQLService.update_violation_summary acc
        (_classify_violation c.1 c.1.flags).2 c.2))
    none

/-- Python's `str.strip()`: drop whitespace from both ends. -/
def pyStrip (s : String) : String :=
  String.mk (((s.toList.dropWhile Char.isWhitespace).reverse.dropWhile
    Char.isWhitespace).reverse)

/-- A face embedding: a fixed-dimension real vector (`np.ndarray` of length `D`). -/
abbrev Vec (D : ℕ) := Fin D → ℝ

/-- `np.dot` on two `D`-vectors. -/
noncomputable def np_dot (D : ℕ) (a b : Vec D) : ℝ :=
  Finset.univ.sum (fun i => a i * b i)

/-- `np.linalg.norm`: the Euclidean norm of a vector. -/
noncomputable def np_linalg_norm (D : ℕ) (v : Vec D) : ℝ :=
  Real.sqrt (Finset.univ.sum (fun i => v i ^ 2))

/-- `_normalize` (src/cheating_detection/face_database.py:194-198): divide by the
Euclidean norm, returning the vector unchanged when the norm is zero. -/
noncomputable def FaceDatabase._normalize (D : ℕ) (v : Vec D) : Vec D :=
  if np_linalg_norm D v = 0 then v else fun i => v i / np_linalg_norm D v

/-- The similarity score `identify` evaluates against each stored embedding
(src/cheating_detection/face_database.py:126): the dot product of the
normalized query and the normalized stored vector. -/
noncomputable def simScore (D : ℕ) (a b : Vec D) : ℝ :=
  np_dot D (FaceDatabase._normalize D a) (FaceDatabase._normalize D b)

/-- `np.mean(vectors, axis=0)`: the element-wise arithmetic mean. -/
noncomputable def np_mean (D : ℕ) (vectors : List (Vec D)) : Vec D :=
  fun i => (vectors.map (fun v => v i)).sum / (vectors.length : ℝ)

/-- Per-student metadata stored by `add_person`
(src/cheating_detection/face_database.py:103-107). -/
structure MetaRec where
  student_id : String
  email : String
  registration_date : String
  deriving DecidableEq

/-- The pickled snapshot `save()` writes: the full embeddings and metadata
mappings (src/cheating_detection/face_database.py:56-64). -/
structure Snapshot (D : ℕ) where
  embeddings : List (String × Vec D)
  metadata : List (String × MetaRec)

/-- In-memory state of `FaceDatabase` plus its persistence history: the two
insertion-ordered dicts, the last persisted snapshot, and how many times
`save()` ran. -/
structure FaceDatabaseState (D : ℕ) where
  embeddings : List (String × Vec D)
  metadata : List (String × MetaRec)
  persisted : Option (Snapshot D)
  saveCount : Nat

/-- Python `k in d` on an insertion-ordered dict. -/
def dictContains {α : Type} (l : List (String × α)) (k : String) : Bool :=
  l.any (fun p => p.1 == k)

/-- Python `d.get(k)` / `d[k]` on an insertion-ordered dict. -/
def dictLookup {α : Type} (l : List (String × α)) (k : String) : Option α :=
  (l.find? (fun p => p.1 == k)).map (fun p => p.2)

/-- Python `d[k] = v`: overwrite in place when the key exists, else append. -/
def dictInsert {α : Type} (l : List (String × α)) (k : String) (v : α) :
    List (String × α) :=
  if dictContains l k then l.map (fun p => if p.1 == k then (k, v) else p)
  else l ++ [(k, v)]

/-- Python `del d[k]`. -/
def dictRemove {α : Type} (l : List (String × α)) (k : String) :
    List (String × α) :=
  l.filter (fun p => p.1 != k)

/-- `FaceDatabase.save` (src/cheating_detection/face_database.py:56-64): persist
the full current mappings as one snapshot. -/
def FaceDatabase.save (D : ℕ) (db : FaceDatabaseState D) : FaceDatabaseState D :=
  { db with
      persisted := some ⟨db.embeddings, db.metadata⟩
      saveCount := db.saveCount + 1 }

/-- `FaceDatabase.has_person` (src/cheating_detection/face_database.py:70-71). -/
def FaceDatabase.has_person (D : ℕ) (db : FaceDatabaseState D) (name : String) :
    Bool :=
  dictContains db.embeddings name

/-- `FaceDatabase.add_person` (src/cheating_detection/face_database.py:73-110):
filter out `None` entries, fail (`ValueError`, modelled as `none`) when nothing
is left, else store the element-wise mean embedding and the metadata record,
persist, and return the new state with the count of consumed vectors. -/
noncomputable def FaceDatabase.add_person (D : ℕ) (db : FaceDatabaseState D)
    (name : String) (embeddings : List (Option (Vec D)))
    (student_id email : Option String) (now : String) :
    Option (FaceDatabaseState D × Nat) :=
  let vectors := embeddings.filterMap id
  if vectors.isEmpty then none
  else
    let mean_embedding := np_mean D vectors
    let db1 : FaceDatabaseState D :=
      { db with
          embeddings := dictInsert db.embeddings name mean_embedding
          metadata := dictInsert db.metadata name
            ⟨student_id.getD "", email.getD "", now⟩ }
    some (FaceDatabase.save D db1, vectors.length)

/-- The loop of `FaceDatabase.identify`
(src/cheating_detection/face_database.py:123-129), threading the best
`(name, score)` so far.  The source normalizes the query once before the loop
and dots it against each stored embedding's normalized form; `simScore`
inlines that normalization, giving the same value each iteration. -/
noncomputable def FaceDatabase.identifyGo (D : ℕ) (embedding : Vec D) :
    List (String × Vec D) → String × ℝ → String × ℝ
  | [], best => best
  | (name, stored) :: rest, best =>
    let score := simScore D embedding stored
    if score > best.2 then FaceDatabase.identifyGo D embedding rest (name, score)
    else FaceDatabase.identifyGo D embedding rest best

/-- `FaceDatabase.identify` (src/cheating_detection/face_database.py:112-130):
`("Unknown", 0.0)` on an empty store, else the best cosine match starting from
`("Unknown", -1.0)`. -/
noncomputable def FaceDatabase.identify (D : ℕ) (db : FaceDatabaseState D)
    (embedding : Vec D) : String × ℝ :=
  if db.embeddings.isEmpty then ("Unknown", 0)
  else FaceDatabase.identifyGo D embedding db.embeddings ("Unknown", -1)

/-- `FaceDatabase.delete_person` (src/cheating_detection/face_database.py:160-176):
false and untouched state when the name is absent; else remove embedding and
(when present) metadata, persist, and return true. -/
def FaceDatabase.delete_person (D : ℕ) (db : FaceDatabaseState D)
    (name : String) : Bool × FaceDatabaseState D :=
  if dictContains db.embeddings name then
    let db1 : FaceDatabaseState D :=
      { db with embeddings := dictRemove db.embeddings name }
    let db2 : FaceDatabaseState D :=
      if dictContains db1.metadata name then
        { db1 with metadata := dictRemove db1.metadata name }
      else db1
    (true, FaceDatabase.save D db2)
  else (false, db)

/-- `FaceDatabase.find_by_student_id`
(src/cheating_detection/face_database.py:178-191): first metadata entry whose
`student_id` matches. -/
def FaceDatabase.find_by_student_id (D : ℕ) (db : FaceDatabaseState D)
    (student_id : String) : Option String :=
  (db.metadata.find? (fun p => p.2.student_id == student_id)).map (fun p => p.1)

/-- One face as the external `FaceAnalysis` model returns it to the recognizer;
the only attribute the registration/verification paths read is the optional
embedding (`getattr(face, "embedding", None)`). -/
structure DetectedFace (D : ℕ) where
  embedding : Option (Vec D)

/-- The external face-analysis result for one image: its list of detected
faces. -/
structure ImageAnalysis (D : ℕ) where
  faces : List (DetectedFace D)

/-- The `ValueError`s `FaceRecognizer.add_person` can raise
(src/cheating_detection/face_recognition.py:104-127): empty name, duplicate
identity, or no valid face in any supplied image. -/
inductive RegError where
  | emptyName
  | duplicateIdentity (name : String)
  | noValidFaces
  deriving DecidableEq

/-- The ingestion-statistics dict `FaceRecognizer.add_person` returns
(src/cheating_detection/face_recognition.py:136-141). -/
structure AddSummary where
  name : String
  processed_images : Nat
  faces_detected : Nat
  embeddings_used : Nat
  deriving DecidableEq

/-- `FaceRecognizer.add_person` (src/cheating_detection/face_recognition.py:85-141):
strip the name, reject empty or already-registered names, harvest one embedding
per image (the first detected face's embedding, when it has one), reject an
empty harvest, else delegate to `FaceDatabase.add_person`.  Returned as the
resulting store state plus either the summary or the raised error; an error
leaves the state exactly as given. -/
noncomputable def FaceRecognizer.add_person (D : ℕ) (db : FaceDatabaseState D)
    (name : String) (images : List (ImageAnalysis D))
    (student_id email : Option String) (now : String) :
    FaceDatabaseState D × Except RegError AddSummary :=
  let clean_name := pyStrip name
  if clean_name = "" then (db, Except.error RegError.emptyName)
  else if FaceDatabase.has_person D db clean_name then
    (db, Except.error (RegError.duplicateIdentity clean_name))
  else
    let embeddings := images.filterMap (fun img => img.faces.head?.bind
      (fun f => f.embedding))
    let face_hits := (images.filter (fun img => !img.faces.isEmpty)).length
    if embeddings.isEmpty then (db, Except.error RegError.noValidFaces)
    else
      match FaceDatabase.add_person D db clean_name (embeddings.map some)
          student_id email now with
      | some (db2, count) =>
        (db2, Except.ok ⟨clean_name, images.length, face_hits, count⟩)
      | none => (db, Except.error RegError.noValidFaces)

/-- The `message` strings `verify_student` can answer with
(src/cheating_detection/face_recognition.py:174-245), one constructor per
f-string template, carrying the interpolated values. -/
inductive VerifyMessage where
  | studentIdNotFound (student_id : String)
  | noFaceData (name : String)
  | noFaceDetected
  | multipleFaces (count : Nat)
  | embeddingExtractionFailed
  | identityVerified (name : String)
  | matchedDifferentPerson (matched expected : String)
  | belowThreshold (similarity threshold : ℝ)

/-- The dict `verify_student` returns: verdict, identities, similarity,
effective threshold (reported only by the identification branch), message and
face bookkeeping. -/
structure VerificationResult where
  verified : Bool
  student_id : String
  name : Option String
  matched_name : Option String
  confidence : ℝ
  thresholdOut : Option ℝ
  message : VerifyMessage
  face_detected : Bool
  face_count : Option Nat

/-- `FaceRecognizer.verify_student`
(src/cheating_detection/face_recognition.py:143-256).  The effective threshold
is the caller's when supplied, else the configured `match_threshold`.  The
outcome precedence follows the source: unknown student id (Python also treats
an empty resolved name as falsy there), missing profile embedding, zero
faces, multiple faces, unextractable embedding, then identification:
`verified = (matched_name == student_name) and (similarity >= threshold)`,
with the "different person" message when the name mismatches and the
below-threshold message when the correct name scored too low. -/
noncomputable def FaceRecognizer.verify_student (D : ℕ) (db : FaceDatabaseState D)
    (match_threshold : ℝ) (student_id : String) (faces : List (DetectedFace D))
    (verification_threshold : Option ℝ) : VerificationResult :=
  let threshold := verification_threshold.getD match_threshold
  match FaceDatabase.find_by_student_id D db student_id with
  | none =>
    ⟨false, student_id, none, none, 0, none,
      VerifyMessage.studentIdNotFound student_id, false, none⟩
  | some student_name =>
    if student_name = "" then
      ⟨false, student_id, none, none, 0, none,
        VerifyMessage.studentIdNotFound student_id, false, none⟩
    else if !FaceDatabase.has_person D db student_name then
      ⟨false, student_id, some student_name, none, 0, none,
        VerifyMessage.noFaceData student_name, false, none⟩
    else
      match faces with
      | [] =>
        ⟨false, student_id, some student_name, none, 0, none,
          VerifyMessage.noFaceDetected, false, some 0⟩
      | [face] =>
        match face.embedding with
        | none =>
          ⟨false, student_id, some student_name, none, 0, none,
            VerifyMessage.embeddingExtractionFailed, true, none⟩
        | some e =>
          let r := FaceDatabase.identify D db e
          let verified : Bool := (r.1 == student_name) && decide (r.2 ≥ threshold)
          let message :=
            if verified then VerifyMessage.identityVerified student_name
            else if r.1 ≠ student_name then
              VerifyMessage.matchedDifferentPerson r.1 student_name
            else VerifyMessage.belowThreshold r.2 threshold
          ⟨verified, student_id, some student_name, some r.1, r.2,
            some threshold, message, true, none⟩
      | _ :: _ :: _ =>
        ⟨false, student_id, some student_name, none, 0, none,
          VerifyMessage.multipleFaces faces.length, true, some faces.length⟩

/-- Fixture: an empty face-database state (fresh start, nothing persisted). -/
def emptyDb : FaceDatabaseState 1 := ⟨[], [], none, 0⟩

/-- Fixture: a one-identity store ("Alice", student id "SV001", zero-vector
embedding in dimension 1), nothing persisted yet. -/
noncomputable def wdb : FaceDatabaseState 1 :=
  ⟨[("Alice", fun _ => 0)], [("Alice", ⟨"SV001", "", "2026-01-01"⟩)], none, 0⟩

/-- Fixture: two one-dimensional sample embeddings with values 2 and 4. -/
noncomputable def wSamples : List (Vec 1) := [fun _ => 2, fun _ => 4]

/-- Helper: every outcome `classifyFlag` produces carries severity "medium". -/
theorem classifyFlag_medium : ∀ (fl : String) (r : String × String),
    classifyFlag fl = some r → r.2 = "medium" := by
  intro fl r h
  unfold classifyFlag at h
  split at h
  · have h2 := Option.some.inj h
    subst h2
    simp only [apply_ite Prod.snd]
    split <;> simp
  · split at h
    · have h2 := Option.some.inj h
      subst h2
      simp only [apply_ite Prod.snd]
      split <;> simp
    · exact absurd h (by simp)

/-- Helper: every outcome of the flag loop carries severity "medium". -/
theorem scanFlags_medium : ∀ (flags : List String) (r : String × String),
    scanFlags flags = some r → r.2 = "medium" := by
  intro flags
  induction flags with
  | nil => intro r h; simp [scanFlags] at h
  | cons f rest ih =>
    intro r h
    unfold scanFlags at h
    cases hc : classifyFlag (strLower f) with
    | none => rw [hc] at h; exact ih r h
    | some p => rw [hc] at h; cases h; exact classifyFlag_medium _ _ hc

/-- Helper: the classifier only ever emits severity "critical" or "medium". -/
theorem classify_severity_cm : ∀ (result : DetectionResult) (flags : List String),
    (_classify_violation result flags).2 = "critical" ∨
    (_classify_violation result flags).2 = "medium" := by
  intro result flags
  obtain ⟨st, faces, objects, fl⟩ := result
  match faces with
  | [] => left; simp [_classify_violation]
  | f :: f2 :: rest =>
    have h2 : 1 < (f :: f2 :: rest).length := by
      simp [List.length]
    left
    simp [_classify_violation, h2]
  | [f] =>
    by_cases hu : f.label = "Unknown"
    · left; simp [_classify_violation, hu]
    · match objects with
      | o :: os => left; simp [_classify_violation, hu]
      | [] =>
        cases hs : scanFlags flags with
        | none => right; simp [_classify_violation, hu, hs]
        | some r =>
          right
          simp only [_classify_violation]
          simp [hu, hs]
          exact scanFlags_medium _ _ hs

/-- Helper: one summary upsert with a "critical" or "medium" severity keeps the
high/low buckets at zero. -/
theorem update_preserves_hl : ∀ (acc : Option SummaryRow) (sev : String) (t : Nat),
    (sev = "critical" ∨ sev = "medium") →
    (∀ row, acc = some row → row.high_count = 0 ∧ row.low_count = 0) →
    (MySQLService.update_violation_summary acc sev t).high_count = 0 ∧
    (MySQLService.update_violation_summary acc sev t).low_count = 0 := by
  intro acc sev t hsev hacc
  have hh : caseEq sev "high" = 0 := by
    rcases hsev with h | h <;> subst h <;> decide
  have hl : caseEq sev "low" = 0 := by
    rcases hsev with h | h <;> subst h <;> decide
  cases acc with
  | none => simp [MySQLService.update_violation_summary, hh, hl]
  | some row =>
    obtain ⟨h1, h2⟩ := hacc row rfl
    simp [MySQLService.update_violation_summary, hh, hl, h1, h2]

/-- Helper: the monitoring fold preserves zero high/low buckets. -/
theorem summary_fold_inv : ∀ (calls : List (DetectionResult × Nat)) (acc : Option SummaryRow),
    (∀ row, acc = some row → row.high_count = 0 ∧ row.low_count = 0) →
    ∀ row,
      calls.foldl
        (fun acc c =>
          some (MySQLService.update_violation_summary acc
            (_classify_violation c.1 c.1.flags).2 c.2))
        acc = some row →
      row.high_count = 0 ∧ row.low_count = 0 := by
  intro calls
  induction calls with
  | nil => intro acc hacc row h; exact hacc row h
  | cons c rest ih =>
    intro acc hacc row h
    refine ih _ ?_ row h
    intro row2 h2
    rw [Option.some_inj] at h2
    subst h2
    exact update_preserves_hl acc _ c.2 (classify_severity_cm c.1 c.1.flags) hacc

/-- C1 counterexample: the claim's equation fails in both branches.  Creation
branch: the SQL writes the literal 0 into `risk_score`, so a first critical
violation stores 0 while the formula over the post-update counts gives 50.
Increment branch: the left-to-right evaluation makes the `risk_score`
expression read the already-incremented counts, so a second critical violation
stores (2+1)*50 = 150 while the formula over the post-update counts gives
2*50 = 100. -/
theorem C1_counterexample :
    (MySQLService.update_violation_summary none "critical" 0).risk_score = 0 ∧
    risk_score_formula (MySQLService.update_violation_summary none "critical" 0) = 50 ∧
    (MySQLService.update_violation_summary none "critical" 0).risk_score ≠
      risk_score_formula (MySQLService.update_violation_summary none "critical" 0) ∧
    (MySQLService.update_violation_summary
        (some (MySQLService.update_violation_summary none "critical" 0))
        "critical" 1).risk_score = 150 ∧
    risk_score_formula (MySQLService.update_violation_summary
        (some (MySQLService.update_violation_summary none "critical" 0))
        "critical" 1) = 100 := by
  refine ⟨rfl, rfl, ?_, rfl, rfl⟩
  decide

/-- C1 (amended): on the creation branch the new row's `risk_score` is the
literal 0, with the severity bucket set by the CASE tests and both timestamps
set to `detected_at`; on the increment branch (a summary row already exists)
MySQL's left-to-right assignment evaluation makes the stored `risk_score`
equal the formula `critical_count*50 + high_count*10 + medium_count*10 +
low_count*10` over the post-update counts PLUS one extra weight of the new
violation's bucket (50 for critical, 10 for high/medium/low, nothing for an
unrecognized severity string) — the new violation's bucket is counted twice. -/
theorem C1_risk_score_branches : ∀ (row : SummaryRow) (severity : String) (t : Nat),
    (MySQLService.update_violation_summary (some row) severity t).risk_score
      = risk_score_formula (MySQLService.update_violation_summary (some row) severity t)
        + caseEq severity "critical" * 50 + caseEq severity "high" * 10
        + caseEq severity "medium" * 10 + caseEq severity "low" * 10 ∧
    (MySQLService.update_violation_summary none severity t).risk_score = 0 ∧
    (MySQLService.update_violation_summary none severity t).critical_count
      = caseEq severity "critical" ∧
    (MySQLService.update_violation_summary none severity t).total_violations = 1 ∧
    (MySQLService.update_violation_summary none severity t).first_violation_at = t ∧
    (MySQLService.update_violation_summary none severity t).last_violation_at = t := by
  intro row severity t
  refine ⟨?_, rfl, rfl, rfl, rfl, rfl⟩
  simp only [MySQLService.update_violation_summary, risk_score_formula]
  ring

/-- C4: a signal bundle with exactly two faces and a non-empty objects list
always classifies as the "multiple faces in frame" violation with severity
critical — rule 1 of the cascade fires and the object rule is never reached,
whatever the objects or flags contain. -/
theorem C4_two_faces_objects_critical : ∀ (st : String) (f1 f2 : Face)
    (ob : DetectedObject) (obs : List DetectedObject) (fl flags : List String),
    _classify_violation ⟨st, [f1, f2], ob :: obs, fl⟩ flags
      = ("Nhiều khuôn mặt trong khung hình", "critical") := by
  intro st f1 f2 ob obs fl flags
  rfl

/-- C5 counterexample: a frame whose detection result has a non-clear status
but an empty flag list persists nothing — no upload, no violation insert, no
summary update — refuting "a violation record is created if and only if
status != clear". -/
theorem C5_counterexample :
    (DetectionResult.mk "violation" [] [] []).status ≠ "clear" ∧
    (monitor_exam ⟨"violation", [], [], []⟩ (none, none) none).uploadCalled = false ∧
    (monitor_exam ⟨"violation", [], [], []⟩ (none, none) none).insertCalled = false ∧
    (monitor_exam ⟨"violation", [], [], []⟩ (none, none) none).summaryCalled = false := by
  refine ⟨?_, rfl, rfl, rfl⟩
  decide

/-- C5 (amended): the image upload and the violation insert happen exactly when
`status != "clear"` AND the flag list is non-empty; the summary upsert
additionally requires the insert to have returned a truthy violation id.  In
particular a clear frame persists nothing. -/
theorem C5_persistence_gate : ∀ (result : DetectionResult)
    (ur : Option String × Option String) (ir : Option Nat),
    (monitor_exam result ur ir).uploadCalled
      = (result.status != "clear" && !result.flags.isEmpty) ∧
    (monitor_exam result ur ir).insertCalled
      = (result.status != "clear" && !result.flags.isEmpty) ∧
    (monitor_exam result ur ir).summaryCalled
      = ((result.status != "clear" && !result.flags.isEmpty) && pyTruthyNat ir) := by
  intro result ur ir
  by_cases h : (result.status != "clear" && !result.flags.isEmpty) = true <;>
    simp [monitor_exam, h, eq_false_of_ne_true]

/-- C6 counterexample: a monitoring call that detects a violation (non-clear
status, non-empty flags) and in which both the image upload and the MySQL
insert fail still answers HTTP 200 with status "violation_detected" and a null
violation id, and skips the summary update — the persistence failure is not
surfaced as a failed monitoring call. -/
theorem C6_counterexample :
    (monitor_exam ⟨"violation", [], [], ["no face detected"]⟩ (none, none) none).httpStatus = 200 ∧
    (monitor_exam ⟨"violation", [], [], ["no face detected"]⟩ (none, none) none).responseStatus
      = "violation_detected" ∧
    (monitor_exam ⟨"violation", [], [], ["no face detected"]⟩ (none, none) none).violationId = none ∧
    (monitor_exam ⟨"violation", [], [], ["no face detected"]⟩ (none, none) none).summaryCalled = false ∧
    (monitor_exam ⟨"violation", [], [], ["no face detected"]⟩ (none, none) none).imageUrl = none := by
  exact ⟨rfl, rfl, rfl, rfl, rfl⟩

/-- C6 (amended): persistence failures are swallowed, not surfaced.  The
monitoring segment always answers HTTP 200; an insert failure (or a returned
id of 0) leaves `violation_id` null in the response and skips the summary
update, and an upload failure leaves `image_url` null — the detected violation
is still reported in the response body, but never as a failed monitoring
call. -/
theorem C6_no_failed_call : ∀ (result : DetectionResult)
    (ur : Option String × Option String) (ir : Option Nat),
    (monitor_exam result ur ir).httpStatus = 200 ∧
    (monitor_exam result ur ir).violationId
      = (if (result.status != "clear" && !result.flags.isEmpty) = true then ir else none) ∧
    (monitor_exam result ur ir).imageUrl
      = (if (result.status != "clear" && !result.flags.isEmpty) = true then ur.1 else none) ∧
    (monitor_exam result ur ir).summaryCalled
      = ((result.status != "clear" && !result.flags.isEmpty) && pyTruthyNat ir) := by
  intro result ur ir
  by_cases h : (result.status != "clear" && !result.flags.isEmpty) = true <;>
    simp [monitor_exam, h, eq_false_of_ne_true]

/-- C10: the classifier only ever returns severity "critical" or "medium"
(never "high" or "low"), and consequently every summary row reachable through
the monitoring flow — any sequence of monitored violations folded through
`update_violation_summary` — has `high_count = 0` and `low_count = 0`. -/
theorem C10_severity_and_summary_invariant :
    (∀ (result : DetectionResult) (flags : List String),
      (_classify_violation result flags).2 = "critical" ∨
      (_classify_violation result flags).2 = "medium") ∧
    (∀ (calls : List (DetectionResult × Nat)) (row : SummaryRow),
      summaryAfterMonitoring calls = some row →
      row.high_count = 0 ∧ row.low_count = 0) := by
  constructor
  · exact classify_severity_cm
  · intro calls row h
    exact summary_fold_inv calls none (by intro r hr; cases hr) row h

/-- Helper: looking up `k` after overwriting `k`'s entry in place yields the new
value (the `k in d` branch of Python dict assignment). -/
theorem lookup_overwrite {α : Type} (k : String) (v : α) :
    ∀ (l : List (String × α)), dictContains l k = true →
      dictLookup (l.map (fun p => if p.1 == k then (k, v) else p)) k = some v := by
  intro l
  induction l with
  | nil => intro h; simp [dictContains] at h
  | cons p rest ih =>
    intro h
    by_cases hp : p.1 = k
    · have hb : (p.1 == k) = true := by simp [hp]
      simp only [dictLookup, List.map_cons, hb, if_true]
      rw [List.find?_cons_of_pos _ (by simp)]
      rfl
    · have hb : (p.1 == k) = false := by simp [hp]
      have h2 : dictContains rest k = true := by
        rw [dictContains, List.any_cons, hb, Bool.false_or] at h
        exact h
      have hrec := ih h2
      simp only [dictLookup, List.map_cons, hb, Bool.false_eq_true, if_false] at hrec ⊢
      rw [List.find?_cons_of_neg _ (by simp [hp])]
      exact hrec

/-- Helper: looking up `k` after appending a fresh `(k, v)` entry yields `v`
(the other branch of Python dict assignment). -/
theorem lookup_append_new {α : Type} (k : String) (v : α) :
    ∀ (l : List (String × α)), dictContains l k = false →
      dictLookup (l ++ [(k, v)]) k = some v := by
  intro l
  induction l with
  | nil => intro h; simp [dictLookup]
  | cons p rest ih =>
    intro h
    rw [dictContains, List.any_cons, Bool.or_eq_false_iff] at h
    obtain ⟨hp, hrest⟩ := h
    have hrec := ih hrest
    simp only [dictLookup, List.cons_append] at hrec ⊢
    rw [List.find?_cons_of_neg _ (by simp_all)]
    exact hrec

/-- Helper: dict assignment followed by lookup of the same key returns the
assigned value. -/
theorem dictLookup_dictInsert {α : Type} (k : String) (v : α)
    (l : List (String × α)) : dictLookup (dictInsert l k v) k = some v := by
  unfold dictInsert
  by_cases h : dictContains l k
  · rw [if_pos h]; exact lookup_overwrite k v l h
  · have hf : dictContains l k = false := eq_false_of_ne_true h
    rw [hf]
    simp only [Bool.false_eq_true, if_false]
    exact lookup_append_new k v l hf

/-- C7: for every non-empty list of sample vectors, `FaceDatabase.add_person`
succeeds, consumes exactly the samples, and stores as the identity's
representative embedding exactly their element-wise arithmetic mean (the i-th
entry is the sum of the samples' i-th entries over the sample count), raw —
no normalization is applied before storage. -/
theorem C7_mean_embedding_stored : ∀ (D : ℕ) (db : FaceDatabaseState D)
    (name : String) (samples : List (Vec D)) (sid em : Option String)
    (now : String),
    samples ≠ [] →
    ∃ db2, FaceDatabase.add_person D db name (samples.map some) sid em now
        = some (db2, samples.length) ∧
      dictLookup db2.embeddings name
        = some (fun i => (samples.map (fun v => v i)).sum / (samples.length : ℝ)) := by
  intro D db name samples sid em now hne
  have hfm : (samples.map some).filterMap id = samples := by
    simp
  have hie : samples.isEmpty = false := by
    cases samples with
    | nil => exact absurd rfl hne
    | cons a l => rfl
  refine ⟨FaceDatabase.save D
    { db with
        embeddings := dictInsert db.embeddings name (np_mean D samples)
        metadata := dictInsert db.metadata name ⟨sid.getD "", em.getD "", now⟩ },
    ?_, ?_⟩
  · unfold FaceDatabase.add_person
    simp only [hfm, hie, Bool.false_eq_true, if_false]
  · show dictLookup (dictInsert db.embeddings name (np_mean D samples)) name = _
    exact dictLookup_dictInsert name (np_mean D samples) db.embeddings

/-- C7 witness: the two samples (2) and (4) in dimension 1 are consumed and the
stored embedding is their mean. -/
theorem C7_witness :
    wSamples ≠ [] ∧
    (∃ db2, FaceDatabase.add_person 1 emptyDb "Alice" (wSamples.map some)
        none none "2026-01-01" = some (db2, wSamples.length) ∧
      dictLookup db2.embeddings "Alice"
        = some (fun i => (wSamples.map (fun v => v i)).sum / (wSamples.length : ℝ))) :=
  ⟨by simp [wSamples],
    C7_mean_embedding_stored 1 emptyDb "Alice" wSamples none none "2026-01-01"
      (by simp [wSamples])⟩

/-- C8: deleting a name absent from the store returns false and the returned
state is the given state itself — embeddings, metadata, persisted snapshot and
save count all unchanged, so no persistence write happens. -/
theorem C8_delete_absent_noop : ∀ (D : ℕ) (db : FaceDatabaseState D)
    (name : String),
    dictContains db.embeddings name = false →
    FaceDatabase.delete_person D db name = (false, db) := by
  intro D db name h
  unfold FaceDatabase.delete_person
  rw [h]
  simp

/-- C8 witness: deleting "Bob" from the empty store. -/
theorem C8_witness : dictContains (emptyDb).embeddings "Bob" = false ∧
    FaceDatabase.delete_person 1 emptyDb "Bob" = (false, emptyDb) :=
  ⟨rfl, C8_delete_absent_noop 1 emptyDb "Bob" rfl⟩

/-- C9: the normalized-cosine similarity score `identify` evaluates against
each stored embedding is symmetric in its two arguments. -/
theorem C9_score_symmetric : ∀ (D : ℕ) (a b : Vec D),
    simScore D a b = simScore D b a := by
  intro D a b
  unfold simScore np_dot
  exact Finset.sum_congr rfl (fun i _ => mul_comm _ _)

/-- C3: when the stripped name is already registered, `FaceRecognizer.add_person`
fails with the duplicate-identity error and returns the store state exactly as
given — stored embedding, metadata, persisted snapshot and save count are all
unchanged, so nothing is persisted. -/
theorem C3_duplicate_identity_no_mutation : ∀ (D : ℕ) (db : FaceDatabaseState D)
    (name : String) (images : List (ImageAnalysis D)) (sid em : Option String)
    (now : String),
    pyStrip name ≠ "" →
    FaceDatabase.has_person D db (pyStrip name) = true →
    FaceRecognizer.add_person D db name images sid em now
      = (db, Except.error (RegError.duplicateIdentity (pyStrip name))) := by
  intro D db name images sid em now h1 h2
  unfold FaceRecognizer.add_person
  simp [h1, h2]

/-- C3 witness: re-registering "Alice" on a store that has her. -/
theorem C3_witness :
    pyStrip "Alice" ≠ "" ∧
    FaceDatabase.has_person 1 wdb (pyStrip "Alice") = true ∧
    FaceRecognizer.add_person 1 wdb "Alice" [] none none "2026-01-01"
      = (wdb, Except.error (RegError.duplicateIdentity (pyStrip "Alice"))) :=
  ⟨by decide, by decide,
    C3_duplicate_identity_no_mutation 1 wdb "Alice" [] none none "2026-01-01"
      (by decide) (by decide)⟩

/-- C2: for a verification call that reaches the identification step (student
id resolves to a non-empty registered name with an embedding, and the frame
yields exactly one face with an extractable embedding), `verified` is true iff
`identify`'s returned name equals the expected student's name AND the
similarity is at least the effective threshold (the caller's when supplied,
else the configured default); and when the matched name is correct but the
score is below the threshold, the message is the below-threshold one, not a
mismatch. -/
theorem C2_verified_iff_match_and_threshold : ∀ (D : ℕ) (db : FaceDatabaseState D)
    (mt : ℝ) (sid : String) (th : Option ℝ) (sname : String) (e : Vec D),
    FaceDatabase.find_by_student_id D db sid = some sname →
    sname ≠ "" →
    FaceDatabase.has_person D db sname = true →
    ((FaceRecognizer.verify_student D db mt sid [⟨some e⟩] th).verified = true ↔
      ((FaceDatabase.identify D db e).1 = sname ∧
        (FaceDatabase.identify D db e).2 ≥ th.getD mt)) ∧
    ((FaceDatabase.identify D db e).1 = sname →
      (FaceDatabase.identify D db e).2 < th.getD mt →
      (FaceRecognizer.verify_student D db mt sid [⟨some e⟩] th).message
        = VerifyMessage.belowThreshold (FaceDatabase.identify D db e).2
            (th.getD mt)) := by
  intro D db mt sid th sname e hfind hname hhas
  unfold FaceRecognizer.verify_student
  rw [hfind]
  simp only [hname, if_false, hhas, Bool.not_true, Bool.false_eq_true]
  constructor
  · simp [Bool.and_eq_true, beq_iff_eq, decide_eq_true_eq]
  · intro h1 h2
    have hd : decide ((FaceDatabase.identify D db e).2 ≥ th.getD mt) = false :=
      decide_eq_false (not_le.mpr h2)
    simp [hd, h1]

/-- C2 witness: student "SV001" resolves to "Alice", who has an embedding; one
face with an extractable embedding and a caller threshold of 0 reach the
identification step. -/
theorem C2_witness :
    (FaceDatabase.find_by_student_id 1 wdb "SV001" = some "Alice" ∧
      "Alice" ≠ "" ∧ FaceDatabase.has_person 1 wdb "Alice" = true) ∧
    (((FaceRecognizer.verify_student 1 wdb (1/2) "SV001" [⟨some (fun _ => 0)⟩]
          (some 0)).verified = true ↔
        ((FaceDatabase.identify 1 wdb (fun _ => 0)).1 = "Alice" ∧
          (FaceDatabase.identify 1 wdb (fun _ => 0)).2 ≥ (some (0:ℝ)).getD (1/2))) ∧
      ((FaceDatabase.identify 1 wdb (fun _ => 0)).1 = "Alice" →
        (FaceDatabase.identify 1 wdb (fun _ => 0)).2 < (some (0:ℝ)).getD (1/2) →
        (FaceRecognizer.verify_student 1 wdb (1/2) "SV001" [⟨some (fun _ => 0)⟩]
            (some 0)).message
          = VerifyMessage.belowThreshold (FaceDatabase.identify 1 wdb (fun _ => 0)).2
              ((some (0:ℝ)).getD (1/2)))) :=
  ⟨⟨by decide, by decide, by decide⟩,
    C2_verified_iff_match_and_threshold 1 wdb (1/2) "SV001" (some 0) "Alice"
      (fun _ => 0) (by decide) (by decide) (by decide)⟩
